import Mathlib

/-!
Verification of the assistant-session manager of the Water-body-detection
website (the `ChatBot` component in `src/components/ChatBot.tsx`).

The component keeps four pieces of React state that matter to the session:
`input` (the text box), `messages` (the transcript), `isLoading` (the
pending flag) and the memoized `chatSession` (the gateway handle, `null`
when construction threw).  `handleSend` is the only operation that mutates
the transcript; `handleKeyPress` forwards Enter-without-shift to
`handleSend`, and the send button calls `handleSend` but is disabled while
`input.trim()` is empty or `isLoading` is true.

The embedding below is a direct transcription of that code:
* `handleSendStart` is the synchronous prefix of `handleSend` up to the
  `await` (guard, `setInput('')`, append of the user turn,
  `setIsLoading(true)`, issuing of `chatSession.sendMessage(...)`);
* `handleSendSettle` is the continuation after the remote call settles
  (the `try`/`catch`/`finally` tail);
* `handleSend` composes the two for a given remote outcome;
* `step` is the event-level semantics of the surrounding UI (typing,
  Enter key, button click, settlement of an outstanding request), which
  lets overlapping in-flight requests be expressed.
-/

/-- Role of a transcript turn; the source uses the literals
`'user' | 'model'` (the spec calls the second one "assistant"). -/
inductive Role where
  | user
  | model
deriving DecidableEq, Repr

/-- Transcript turn, `interface Message { role; text }` in the source. -/
structure Message where
  role : Role
  text : String
deriving DecidableEq, Repr

/-- System-instruction string fed to the gateway at construction
(`SYSTEM_INSTRUCTION` in `ChatBot.tsx`). -/
def SYSTEM_INSTRUCTION : String :=
"You are the AI research assistant for the \"USS-Water\" website.
Your goal is to answer questions about the paper \"USS-Water: High-Resolution Satellite Mapping of U.S. Surface Water\" (Scientific Reports, 2024).

KEY FACTS:
- Authors: Madhu Goutham Reddy Ambati (Lead), Nischal Vooda, Mohammed Sohaib Uddin, Abdul Rahman Shaikh, Mani Sai Lakshmi Karasani, M. Courtney Hughes, Mahdi Vaezi (NIU).
- Problem: Traditional satellite water detection (Landsat/Sentinel) has low resolution (10-30m), missing small water bodies like narrow streams and ponds.
- Dataset (\"USS-Water\"):
  - Source: High-resolution RGB imagery from Google Earth Pro.
  - Size: 1,483 images, 1.48 billion labeled pixels.
  - Resolution: 0.3 meters/pixel.
  - Coverage: 147 locations across 44 U.S. states.
  - Classes (7): Rivers, Lakes, Ponds, Reservoirs, Wetlands, Creeks, Coastal.
  - Preprocessing:
    - Images cropped to remove map legends and UI artifacts.
    - Sliced into smaller patches for training to fit GPU memory constraints.
    - Data Augmentation: Techniques like rotation, flipping, and brightness adjustments were used to improve generalization.
- Model (\"U-Net+\"):
  - Architecture: Customized U-Net with efficient encoder-decoder blocks.
  - Key Innovation 1: Patch Compression - Handles large input images by resizing and intelligent tiling, significantly reducing memory overhead.
  - Key Innovation 2: Depth-wise Separable Convolutions - Replaces standard convolutions to reduce parameter count by ~40% and drastically speed up inference.
- Performance:
  - F1 Score: 93.6% (Competitive with state-of-the-art).
  - Inference Speed: 6.0 FPS on RTX 3090 (3x faster than MSResNet-34).
  - VRAM Usage: Highly efficient (4.2GB), allowing deployment on standard consumer hardware.
- Comparison:
  - MSResNet-34: Slightly higher accuracy (95.4% F1) but computationally expensive (10.7GB VRAM, 1.9 FPS).
  - DeepLabV3+: Lower accuracy (92.0% F1) and slower (2.1 FPS).
  - SegFormer-B0: Good balance (94.1% F1), but U-Net+ is optimized specifically for speed/accuracy trade-off in this domain.

LIMITATIONS & ASSUMPTIONS:
- Reliance on RGB: The model uses only Red, Green, Blue channels. It lacks Near-Infrared (NIR) bands (common in Landsat/Sentinel), yet achieves high accuracy through deep learning feature extraction.
- Environmental Challenges:
  - Heavy cloud cover or thick atmospheric haze can obstruct detection.
  - Extreme shadows in dense urban canyons (skyscrapers) may occasionally result in false negatives.
  - Frozen water bodies or snow cover in winter are not the primary target and may be misclassified.
- Seasonality: The dataset captures specific temporal snapshots; highly ephemeral streams (dry season) might be underrepresented.

BEHAVIOR:
- Keep answers concise, professional, and scientific.
- If asked about code or data availability, refer to the GitHub link provided in the interface.
- If asked unrelated questions, politely steer the conversation back to the paper\x27s findings.
"

/-- JS `String.prototype.trim()`: drop leading and trailing whitespace.
(Defined by structural recursion on the character list so that concrete
calls evaluate; the built-in `String.trim` is extensionally the same
function but its auxiliaries are defined by well-founded recursion.) -/
def jsTrim (s : String) : String :=
  String.mk (((s.data.dropWhile Char.isWhitespace).reverse.dropWhile Char.isWhitespace).reverse)

/-- Gateway handle produced by `ai.chats.create({ model, config: { systemInstruction } })`. -/
structure GatewayHandle where
  model : String
  systemInstruction : String
deriving DecidableEq, Repr

/-- Per-call request payload: `chatSession.sendMessage({ message: userMessage })`
carries exactly one field, the newest user text. -/
structure SendMessageParams where
  message : String
deriving DecidableEq, Repr

/-- One request issued to the remote gateway: the handle it was sent on and
the payload it carried. -/
structure IssuedRequest where
  handle : GatewayHandle
  params : SendMessageParams
deriving DecidableEq, Repr

/-- Outcome of one remote call: it either resolves with `result.text`
(a string, possibly empty, or absent) or throws/rejects. -/
inductive RemoteResult where
  | success (text : Option String)
  | failure
deriving DecidableEq, Repr

/-- Greeting message seeding the transcript
(`useState<Message[]>([{ role: 'model', text: "Hi! ..." }])`). -/
def greeting : Message :=
  Message.mk Role.model
    "Hi! I\x27m the USS-Water AI assistant. Ask me anything about the dataset, the U-Net+ model, or our results."

/-- Fallback assistant text used when `result.text` is falsy
(empty or missing), from `responseText || "I couldn't generate a response."`. -/
def emptyResponseFallback : String := "I couldn\x27t generate a response."

/-- Fallback assistant text appended on the `catch` path of `handleSend`. -/
def errorFallback : String := "Sorry, I encountered an error connecting to the AI service."

/-- Gateway construction, the `useMemo` initializer: `try { ... return
ai.chats.create({ model: 'gemini-3-flash-preview', config: { systemInstruction:
SYSTEM_INSTRUCTION } }) } catch { return null }`.  Whether the constructor
throws (e.g. missing credential) is abstracted as the boolean argument;
the `catch` turns a throw into `null`, so construction never throws. -/
def initGateway (gatewayOk : Bool) : Option GatewayHandle :=
  if gatewayOk then
    some (GatewayHandle.mk "gemini-3-flash-preview" SYSTEM_INSTRUCTION)
  else
    none

/-- React state of the `ChatBot` component relevant to the session. -/
structure ChatState where
  input : String
  messages : List Message
  isLoading : Bool
  chatSession : Option GatewayHandle
deriving DecidableEq, Repr

/-- Synchronous prefix of `handleSend`, up to and including issuing the
remote request (everything before the `await`):

* guard: `if (!input.trim() || !chatSession) return;` — in JS a string is
  falsy exactly when it is empty, and `!chatSession` holds exactly when the
  memoized handle is `null`;
* `const userMessage = input.trim(); setInput('');`
* `setMessages(prev => [...prev, { role: 'user', text: userMessage }]);`
* `setIsLoading(true);`
* `chatSession.sendMessage({ message: userMessage })` — the issued request.

Returns the state at the suspension point together with the request
issued, `none` when the guard rejected the call. -/
def handleSendStart (s : ChatState) : ChatState × Option IssuedRequest :=
  if jsTrim s.input = "" then (s, none)
  else
    match s.chatSession with
    | none => (s, none)
    | some h =>
      ({ s with
          input := "",
          messages := s.messages ++ [Message.mk Role.user (jsTrim s.input)],
          isLoading := true },
       some (IssuedRequest.mk h (SendMessageParams.mk (jsTrim s.input))))

/-- JS `responseText || "I couldn't generate a response."`: the fallback is
substituted when `result.text` is missing or the empty string (both falsy). -/
def responseOrFallback (t : Option String) : String :=
  match t with
  | some txt => if txt = "" then emptyResponseFallback else txt
  | none => emptyResponseFallback

/-- Text of the assistant turn appended once the remote call settles with
outcome `r` (`try` branch on success, `catch` branch on failure). -/
def settleText (r : RemoteResult) : String :=
  match r with
  | RemoteResult.success t => responseOrFallback t
  | RemoteResult.failure => errorFallback

/-- Continuation of `handleSend` after the `await` settles with outcome `r`:
on success it appends the model turn with `responseText || fallback`, on
failure (the `catch` branch) it appends the error fallback turn; the
`finally` branch sets `isLoading` to `false` on both paths.  No exception
escapes: every outcome produces a normal state. -/
def handleSendSettle (s : ChatState) (r : RemoteResult) : ChatState :=
  match r with
  | RemoteResult.success t =>
      { s with
          messages := s.messages ++ [Message.mk Role.model (responseOrFallback t)],
          isLoading := false }
  | RemoteResult.failure =>
      { s with
          messages := s.messages ++ [Message.mk Role.model errorFallback],
          isLoading := false }

/-- Whole `handleSend` run to settlement, for a remote call that (if issued)
settles with outcome `r`; also returns the list of requests the call issued
to the gateway (empty when the guard rejected it). -/
def handleSend (s : ChatState) (r : RemoteResult) : ChatState × List IssuedRequest :=
  match handleSendStart s with
  | (s1, none) => (s1, [])
  | (s1, some q) => (handleSendSettle s1 r, [q])

/-- Disabled attribute of the send button:
`disabled={!input.trim() || isLoading}`. -/
def sendButtonDisabled (s : ChatState) : Bool :=
  jsTrim s.input = "" || s.isLoading

/-- UI-level events that can reach the session state: typing in the text box
(`onChange` calls `setInput`), a keydown in the text box (`handleKeyPress`),
a click on the send button, and settlement of an outstanding remote call. -/
inductive UIEvent where
  | typeInput (text : String)
  | pressKey (key : String) (shiftKey : Bool)
  | clickSend
  | settle (r : RemoteResult)
deriving DecidableEq, Repr

/-- Component state together with the observables needed to reason about
in-flight requests: how many remote calls are outstanding, the log of all
requests ever issued, and how many times gateway construction ran. -/
structure UIState where
  chat : ChatState
  inFlight : Nat
  requestLog : List IssuedRequest
  constructAttempts : Nat
deriving DecidableEq, Repr

/-- Bookkeeping around `handleSendStart`: record the issued request (if any)
in the in-flight count and the request log. -/
def issueFrom (u : UIState) (p : ChatState × Option IssuedRequest) : UIState :=
  match p with
  | (c, none) => { u with chat := c }
  | (c, some q) =>
      { u with
          chat := c,
          inFlight := u.inFlight + 1,
          requestLog := u.requestLog ++ [q] }

/-- Event semantics of the component.

* `typeInput t` is the text box `onChange`: `setInput(t)`.
* `pressKey k shift` is `handleKeyPress`: it runs the synchronous prefix of
  `handleSend` when `k` is Enter and shift is not held — note this path
  performs no check of `isLoading`.
* `clickSend` is a click on the send button, which the browser drops while
  the button is disabled (`!input.trim() || isLoading`).
* `settle r` resolves one outstanding remote call with outcome `r`, running
  the `try`/`catch`/`finally` continuation of the `handleSend` that issued
  it; with no outstanding call it is a no-op (there is nothing to settle). -/
def step (e : UIEvent) (u : UIState) : UIState :=
  match e with
  | UIEvent.typeInput t => { u with chat := { u.chat with input := t } }
  | UIEvent.pressKey k shift =>
      if k = "Enter" ∧ shift = false then issueFrom u (handleSendStart u.chat)
      else u
  | UIEvent.clickSend =>
      if sendButtonDisabled u.chat then u
      else issueFrom u (handleSendStart u.chat)
  | UIEvent.settle r =>
      if u.inFlight = 0 then u
      else
        { u with
            chat := handleSendSettle u.chat r,
            inFlight := u.inFlight - 1 }

/-- Initial component state: empty input, transcript seeded with the
greeting, not loading, and the gateway handle memoized exactly once by the
`useMemo` with an empty dependency list (so construction is attempted once
per component lifetime, counted by `constructAttempts`). -/
def initUI (gatewayOk : Bool) : UIState :=
  { chat :=
      { input := "",
        messages := [greeting],
        isLoading := false,
        chatSession := initGateway gatewayOk },
    inFlight := 0,
    requestLog := [],
    constructAttempts := 1 }

/-- Run a sequence of UI events from a state. -/
def runTrace (u : UIState) (es : List UIEvent) : UIState :=
  match es with
  | [] => u
  | e :: rest => runTrace (step e u) rest

/-- Characterization of the guard: a call with whitespace-only input is
rejected before any effect (`!input.trim()` is true exactly on the empty
trimmed string). -/
theorem handleSendStart_rejected_empty (s : ChatState) (he : jsTrim s.input = "") :
    handleSendStart s = (s, none) := by
  unfold handleSendStart
  rw [if_pos he]

/-- Characterization of the guard: a call on a disabled session
(memoized handle is `null`) is rejected before any effect. -/
theorem handleSendStart_rejected_noSession (s : ChatState) (hs : s.chatSession = none) :
    handleSendStart s = (s, none) := by
  unfold handleSendStart
  by_cases he : jsTrim s.input = ""
  · rw [if_pos he]
  · rw [if_neg he, hs]

/-- Characterization of an accepted call at the suspension point: input
cleared, the user turn appended, the loading flag raised, and exactly one
request issued, carrying the trimmed user text on the memoized handle. -/
theorem handleSendStart_accepted (s : ChatState) (h : GatewayHandle)
    (hne : jsTrim s.input ≠ "") (hs : s.chatSession = some h) :
    handleSendStart s =
      ({ s with
          input := "",
          messages := s.messages ++ [Message.mk Role.user (jsTrim s.input)],
          isLoading := true },
       some (IssuedRequest.mk h (SendMessageParams.mk (jsTrim s.input)))) := by
  unfold handleSendStart
  rw [if_neg hne, hs]

/-- Settlement always appends exactly one model turn, with text `settleText r`,
and lowers the loading flag. -/
theorem handleSendSettle_eq (s : ChatState) (r : RemoteResult) :
    handleSendSettle s r =
      { s with
          messages := s.messages ++ [Message.mk Role.model (settleText r)],
          isLoading := false } := by
  cases r with
  | success t => rfl
  | failure => rfl

/-- Full characterization of an accepted `handleSend` run to settlement. -/
theorem handleSend_accepted (s : ChatState) (h : GatewayHandle) (r : RemoteResult)
    (hne : jsTrim s.input ≠ "") (hs : s.chatSession = some h) :
    handleSend s r =
      ({ s with
          input := "",
          messages := s.messages
            ++ [Message.mk Role.user (jsTrim s.input),
                Message.mk Role.model (settleText r)],
          isLoading := false },
       [IssuedRequest.mk h (SendMessageParams.mk (jsTrim s.input))]) := by
  unfold handleSend
  rw [handleSendStart_accepted s h hne hs]
  dsimp only
  rw [handleSendSettle_eq]
  simp

/-- Claim C1.  The claim states that every send issued while the session is
pending is rejected as a no-op, so that no two remote requests overlap in
flight.  The code refutes it: `handleSend` itself never inspects
`isLoading`; only the button's `disabled` attribute does, and
`handleKeyPress` calls `handleSend` directly on Enter.  Concretely: type a
question and press Enter (one request in flight, `isLoading` true), type a
second question and press Enter again — the second call is accepted, a
second user turn is appended, and a second request is issued while the
first is still outstanding, giving two simultaneously in-flight requests. -/
theorem enter_while_pending_issues_second_request :
    (runTrace (initUI true)
        [UIEvent.typeInput "first question",
         UIEvent.pressKey "Enter" false]).chat.isLoading = true
    ∧ (runTrace (initUI true)
        [UIEvent.typeInput "first question",
         UIEvent.pressKey "Enter" false]).inFlight = 1
    ∧ (runTrace (initUI true)
        [UIEvent.typeInput "first question",
         UIEvent.pressKey "Enter" false,
         UIEvent.typeInput "second question",
         UIEvent.pressKey "Enter" false]).inFlight = 2
    ∧ (runTrace (initUI true)
        [UIEvent.typeInput "first question",
         UIEvent.pressKey "Enter" false,
         UIEvent.typeInput "second question",
         UIEvent.pressKey "Enter" false]).chat.messages.length = 3
    ∧ (runTrace (initUI true)
        [UIEvent.typeInput "first question",
         UIEvent.pressKey "Enter" false,
         UIEvent.typeInput "second question",
         UIEvent.pressKey "Enter" false]).requestLog.length = 2 := by
  decide

/-- Claim C2: an accepted send (enabled session, non-whitespace text, not
pending) grows the transcript by exactly two turns for every remote
outcome — first the user turn with the trimmed input, then exactly one
assistant turn — and the pending flag is false after settlement. -/
theorem accepted_send_appends_exactly_two_turns (s : ChatState) (h : GatewayHandle)
    (r : RemoteResult) (hne : jsTrim s.input ≠ "") (hs : s.chatSession = some h)
    (_hp : s.isLoading = false) :
    (handleSend s r).1.messages
      = s.messages
        ++ [Message.mk Role.user (jsTrim s.input), Message.mk Role.model (settleText r)]
    ∧ (handleSend s r).1.messages.length = s.messages.length + 2
    ∧ (handleSend s r).1.isLoading = false := by
  rw [handleSend_accepted s h r hne hs]
  refine ⟨rfl, ?_, rfl⟩
  simp

/-- State of the component ready to send: the happy-path question typed,
transcript still the greeting, not loading, gateway constructed. -/
def sReady : ChatState :=
  { input := "What is the F1 score?",
    messages := [greeting],
    isLoading := false,
    chatSession := initGateway true }

/-- Witness for claim C2 at the happy-path input. -/
theorem accepted_send_appends_exactly_two_turns_witness :
    (handleSend sReady (RemoteResult.success (some "93.6%"))).1.messages
      = sReady.messages
        ++ [Message.mk Role.user (jsTrim sReady.input),
            Message.mk Role.model (settleText (RemoteResult.success (some "93.6%")))]
    ∧ (handleSend sReady (RemoteResult.success (some "93.6%"))).1.messages.length
        = sReady.messages.length + 2
    ∧ (handleSend sReady (RemoteResult.success (some "93.6%"))).1.isLoading = false :=
  accepted_send_appends_exactly_two_turns sReady
    (GatewayHandle.mk "gemini-3-flash-preview" SYSTEM_INSTRUCTION)
    (RemoteResult.success (some "93.6%")) (by decide) rfl rfl

/-- Claim C3: the fallback texts of an accepted send.  When the remote call
resolves with missing text the assistant turn is exactly
"I couldn't generate a response."; the same holds when it resolves with the
empty string (both are falsy in `responseText || ...`); when the remote
call throws or rejects, the assistant turn is exactly
"Sorry, I encountered an error connecting to the AI service.".  In every
case `handleSend` returns an ordinary state — it is a total function of
the outcome, so no error escapes to the caller. -/
theorem accepted_send_fallback_texts (s : ChatState) (h : GatewayHandle)
    (hne : jsTrim s.input ≠ "") (hs : s.chatSession = some h) :
    (handleSend s (RemoteResult.success none)).1.messages
      = s.messages
        ++ [Message.mk Role.user (jsTrim s.input),
            Message.mk Role.model emptyResponseFallback]
    ∧ (handleSend s (RemoteResult.success (some ""))).1.messages
      = s.messages
        ++ [Message.mk Role.user (jsTrim s.input),
            Message.mk Role.model emptyResponseFallback]
    ∧ (handleSend s RemoteResult.failure).1.messages
      = s.messages
        ++ [Message.mk Role.user (jsTrim s.input),
            Message.mk Role.model errorFallback] := by
  refine ⟨?_, ?_, ?_⟩
  · rw [handleSend_accepted s h (RemoteResult.success none) hne hs]
    rfl
  · rw [handleSend_accepted s h (RemoteResult.success (some "")) hne hs]
    simp [settleText, responseOrFallback]
  · rw [handleSend_accepted s h RemoteResult.failure hne hs]
    rfl

/-- Witness for claim C3 at the happy-path state. -/
theorem accepted_send_fallback_texts_witness :
    (handleSend sReady (RemoteResult.success none)).1.messages
      = sReady.messages
        ++ [Message.mk Role.user (jsTrim sReady.input),
            Message.mk Role.model emptyResponseFallback]
    ∧ (handleSend sReady (RemoteResult.success (some ""))).1.messages
      = sReady.messages
        ++ [Message.mk Role.user (jsTrim sReady.input),
            Message.mk Role.model emptyResponseFallback]
    ∧ (handleSend sReady RemoteResult.failure).1.messages
      = sReady.messages
        ++ [Message.mk Role.user (jsTrim sReady.input),
            Message.mk Role.model errorFallback] :=
  accepted_send_fallback_texts sReady
    (GatewayHandle.mk "gemini-3-flash-preview" SYSTEM_INSTRUCTION) (by decide) rfl

/-- Claim C4: on an accepted send the loading flag is lowered on every exit
path of the remote interaction — success with text, success with empty or
missing text, and thrown failure (the `finally` branch) — so the session is
back in the ready state after any settlement. -/
theorem accepted_send_resets_pending (s : ChatState) (h : GatewayHandle)
    (r : RemoteResult) (hne : jsTrim s.input ≠ "") (hs : s.chatSession = some h) :
    (handleSend s r).1.isLoading = false := by
  rw [handleSend_accepted s h r hne hs]

/-- Witness for claim C4 on the failure path. -/
theorem accepted_send_resets_pending_witness :
    (handleSend sReady RemoteResult.failure).1.isLoading = false :=
  accepted_send_resets_pending sReady
    (GatewayHandle.mk "gemini-3-flash-preview" SYSTEM_INSTRUCTION)
    RemoteResult.failure (by decide) rfl

/-- Claim C5: a send whose input is empty or whitespace-only is a complete
no-op — the whole component state (transcript, input, pending flag, handle)
is returned unchanged and no request is issued to the gateway. -/
theorem whitespace_send_is_noop (s : ChatState) (r : RemoteResult)
    (hws : jsTrim s.input = "") :
    handleSend s r = (s, []) := by
  unfold handleSend
  rw [handleSendStart_rejected_empty s hws]

/-- State with whitespace-only input, used to instantiate the no-op claims. -/
def sBlank : ChatState :=
  { input := "   ",
    messages := [greeting],
    isLoading := false,
    chatSession := initGateway true }

/-- Witness for claim C5 at a three-space input. -/
theorem whitespace_send_is_noop_witness :
    handleSend sBlank (RemoteResult.success (some "hi")) = (sBlank, []) :=
  whitespace_send_is_noop sBlank (RemoteResult.success (some "hi")) (by decide)

/-- Claim C8: an accepted send issues exactly one request to the gateway,
whose payload object consists of the single field
`message = jsTrim input` — the same text appended as the user turn — with
no transcript turns in it (the `SendMessageParams` type has no other
field, mirroring the literal `{ message: userMessage }`). -/
theorem accepted_send_single_request_payload (s : ChatState) (h : GatewayHandle)
    (r : RemoteResult) (hne : jsTrim s.input ≠ "") (hs : s.chatSession = some h) :
    (handleSend s r).2 = [IssuedRequest.mk h (SendMessageParams.mk (jsTrim s.input))]
    ∧ (handleSend s r).1.messages
      = s.messages
        ++ [Message.mk Role.user (jsTrim s.input), Message.mk Role.model (settleText r)] := by
  rw [handleSend_accepted s h r hne hs]
  exact ⟨rfl, rfl⟩

/-- Witness for claim C8 at the happy-path state. -/
theorem accepted_send_single_request_payload_witness :
    (handleSend sReady (RemoteResult.success (some "93.6%"))).2
      = [IssuedRequest.mk (GatewayHandle.mk "gemini-3-flash-preview" SYSTEM_INSTRUCTION)
          (SendMessageParams.mk (jsTrim sReady.input))]
    ∧ (handleSend sReady (RemoteResult.success (some "93.6%"))).1.messages
      = sReady.messages
        ++ [Message.mk Role.user (jsTrim sReady.input),
            Message.mk Role.model (settleText (RemoteResult.success (some "93.6%")))] :=
  accepted_send_single_request_payload sReady
    (GatewayHandle.mk "gemini-3-flash-preview" SYSTEM_INSTRUCTION)
    (RemoteResult.success (some "93.6%")) (by decide) rfl

/-- Claim C9: the input buffer is cleared exactly on acceptance.  When the
guard accepts, the state at the suspension point — i.e. before the remote
request settles, the request having just been issued from that very
state — already has an empty input buffer; when the guard rejects (empty
or whitespace-only trimmed input, or a disabled session, the only two
rejection causes in the code), the whole state is returned unchanged, so
in particular the input buffer is untouched. -/
theorem input_cleared_iff_send_accepted (s : ChatState) :
    ((handleSendStart s).2.isSome = true → (handleSendStart s).1.input = "")
    ∧ ((handleSendStart s).2 = none → (handleSendStart s).1 = s) := by
  by_cases he : jsTrim s.input = ""
  · rw [handleSendStart_rejected_empty s he]
    exact ⟨fun hc => absurd hc (by simp), fun _ => rfl⟩
  · cases hs : s.chatSession with
    | none =>
        rw [handleSendStart_rejected_noSession s hs]
        exact ⟨fun hc => absurd hc (by simp), fun _ => rfl⟩
    | some h =>
        rw [handleSendStart_accepted s h he hs]
        exact ⟨fun _ => rfl, fun hc => absurd hc (by simp)⟩

/-- Witness for claim C9: the accepted branch clears the buffer, the
whitespace-rejected branch returns the state unchanged. -/
theorem input_cleared_iff_send_accepted_witness :
    (handleSendStart sReady).1.input = "" ∧ (handleSendStart sBlank).1 = sBlank :=
  ⟨(input_cleared_iff_send_accepted sReady).1 (by decide),
   (input_cleared_iff_send_accepted sBlank).2 (by decide)⟩

/-- Projection: the chat state after bookkeeping is the one produced by
`handleSendStart`. -/
theorem issueFrom_chat (u : UIState) (p : ChatState × Option IssuedRequest) :
    (issueFrom u p).chat = p.1 := by
  rcases p with ⟨c, o⟩
  cases o <;> rfl

/-- Projection: bookkeeping appends the issued request (if any) to the log. -/
theorem issueFrom_requestLog (u : UIState) (p : ChatState × Option IssuedRequest) :
    (issueFrom u p).requestLog = u.requestLog ++ p.2.toList := by
  rcases p with ⟨c, o⟩
  cases o <;> simp [issueFrom]

/-- Projection: bookkeeping never re-runs gateway construction. -/
theorem issueFrom_constructAttempts (u : UIState) (p : ChatState × Option IssuedRequest) :
    (issueFrom u p).constructAttempts = u.constructAttempts := by
  rcases p with ⟨c, o⟩
  cases o <;> rfl

/-- The synchronous prefix of `handleSend` never touches the memoized handle. -/
theorem handleSendStart_chatSession (s : ChatState) :
    (handleSendStart s).1.chatSession = s.chatSession := by
  by_cases he : jsTrim s.input = ""
  · rw [handleSendStart_rejected_empty s he]
  · cases hs : s.chatSession with
    | none =>
        rw [handleSendStart_rejected_noSession s hs]
        exact hs
    | some h =>
        rw [handleSendStart_accepted s h he hs]
        exact hs

/-- The request issued by `handleSendStart`, when there is one, goes out on
the handle currently memoized in the state. -/
theorem handleSendStart_issued (s : ChatState) :
    (handleSendStart s).2 = none
    ∨ ∃ q, (handleSendStart s).2 = some q ∧ s.chatSession = some q.handle := by
  by_cases he : jsTrim s.input = ""
  · left
    rw [handleSendStart_rejected_empty s he]
  · cases hs : s.chatSession with
    | none =>
        left
        rw [handleSendStart_rejected_noSession s hs]
    | some h =>
        right
        refine ⟨IssuedRequest.mk h (SendMessageParams.mk (jsTrim s.input)), ?_, rfl⟩
        rw [handleSendStart_accepted s h he hs]

/-- The transcript never shrinks under the synchronous prefix of `handleSend`. -/
theorem handleSendStart_messages_append (s : ChatState) :
    ∃ t, (handleSendStart s).1.messages = s.messages ++ t := by
  by_cases he : jsTrim s.input = ""
  · rw [handleSendStart_rejected_empty s he]
    exact ⟨[], by simp⟩
  · cases hs : s.chatSession with
    | none =>
        rw [handleSendStart_rejected_noSession s hs]
        exact ⟨[], by simp⟩
    | some h =>
        rw [handleSendStart_accepted s h he hs]
        exact ⟨[Message.mk Role.user (jsTrim s.input)], rfl⟩

/-- One UI event either leaves the transcript unchanged or appends at the
end; no previously appended turn is edited or removed. -/
theorem step_messages_append (e : UIEvent) (u : UIState) :
    ∃ t, (step e u).chat.messages = u.chat.messages ++ t := by
  cases e with
  | typeInput t => exact ⟨[], by simp [step]⟩
  | pressKey k shift =>
      simp only [step]
      split
      · obtain ⟨t, ht⟩ := handleSendStart_messages_append u.chat
        exact ⟨t, by rw [issueFrom_chat]; exact ht⟩
      · exact ⟨[], by simp⟩
  | clickSend =>
      simp only [step]
      split
      · exact ⟨[], by simp⟩
      · obtain ⟨t, ht⟩ := handleSendStart_messages_append u.chat
        exact ⟨t, by rw [issueFrom_chat]; exact ht⟩
  | settle r =>
      simp only [step]
      split
      · exact ⟨[], by simp⟩
      · exact ⟨[Message.mk Role.model (settleText r)],
          by rw [show (({ u with
              chat := handleSendSettle u.chat r,
              inFlight := u.inFlight - 1 } : UIState)).chat = handleSendSettle u.chat r from rfl,
            handleSendSettle_eq]⟩

/-- Transcript growth is append-only along any event trace. -/
theorem runTrace_messages_append (es : List UIEvent) : ∀ u : UIState,
    ∃ t, (runTrace u es).chat.messages = u.chat.messages ++ t := by
  induction es with
  | nil =>
      intro u
      exact ⟨[], by simp [runTrace]⟩
  | cons e rest ih =>
      intro u
      obtain ⟨t1, h1⟩ := step_messages_append e u
      obtain ⟨t2, h2⟩ := ih (step e u)
      refine ⟨t1 ++ t2, ?_⟩
      rw [show runTrace u (e :: rest) = runTrace (step e u) rest from rfl, h2, h1,
        List.append_assoc]

/-- Claim C7: the transcript starts as the single synthetic greeting turn
(whatever the gateway construction outcome), and it is strictly
append-only: every UI event, and hence every event trace, either leaves it
unchanged or appends turns at its end — no turn is ever edited or removed,
in particular not when the remote response fails (the failure path also
only appends). -/
theorem transcript_starts_greeting_and_append_only :
    (∀ g : Bool, (initUI g).chat.messages = [greeting])
    ∧ (∀ (e : UIEvent) (u : UIState), ∃ t, (step e u).chat.messages = u.chat.messages ++ t)
    ∧ (∀ (es : List UIEvent) (u : UIState),
        ∃ t, (runTrace u es).chat.messages = u.chat.messages ++ t) :=
  ⟨fun _ => rfl, step_messages_append, fun es u => runTrace_messages_append es u⟩

/-- In a state whose session is disabled and has nothing in flight, no UI
event can change the transcript, contact the gateway, or re-enable the
session. -/
theorem step_disabled_inv (e : UIEvent) (u : UIState)
    (hm : u.chat.messages = [greeting]) (hr : u.requestLog = [])
    (hs : u.chat.chatSession = none) (hf : u.inFlight = 0) :
    (step e u).chat.messages = [greeting] ∧ (step e u).requestLog = []
    ∧ (step e u).chat.chatSession = none ∧ (step e u).inFlight = 0 := by
  cases e with
  | typeInput t => exact ⟨hm, hr, hs, hf⟩
  | pressKey k shift =>
      simp only [step]
      split
      · rw [handleSendStart_rejected_noSession u.chat hs]
        exact ⟨hm, hr, hs, hf⟩
      · exact ⟨hm, hr, hs, hf⟩
  | clickSend =>
      simp only [step]
      split
      · exact ⟨hm, hr, hs, hf⟩
      · rw [handleSendStart_rejected_noSession u.chat hs]
        exact ⟨hm, hr, hs, hf⟩
  | settle r =>
      simp only [step]
      rw [if_pos hf]
      exact ⟨hm, hr, hs, hf⟩

/-- Trace version of `step_disabled_inv`. -/
theorem runTrace_disabled_inv (es : List UIEvent) : ∀ u : UIState,
    u.chat.messages = [greeting] → u.requestLog = [] →
    u.chat.chatSession = none → u.inFlight = 0 →
    (runTrace u es).chat.messages = [greeting] ∧ (runTrace u es).requestLog = []
    ∧ (runTrace u es).chat.chatSession = none ∧ (runTrace u es).inFlight = 0 := by
  induction es with
  | nil =>
      intro u hm hr hs hf
      exact ⟨hm, hr, hs, hf⟩
  | cons e rest ih =>
      intro u hm hr hs hf
      have h := step_disabled_inv e u hm hr hs hf
      exact ih (step e u) h.1 h.2.1 h.2.2.1 h.2.2.2

/-- Claim C6: when gateway construction throws, the `catch` stores `null`
and no exception escapes (construction is the total function
`initGateway`); the session exists with the greeting still in the
transcript, and every subsequent interaction is a no-op: along any event
trace the transcript remains exactly the greeting and no request is ever
issued to the gateway. -/
theorem disabled_session_sends_are_noops (es : List UIEvent) :
    (initUI false).chat.chatSession = none
    ∧ (initUI false).chat.messages = [greeting]
    ∧ (runTrace (initUI false) es).chat.messages = [greeting]
    ∧ (runTrace (initUI false) es).requestLog = [] := by
  have h := runTrace_disabled_inv es (initUI false) rfl rfl rfl rfl
  exact ⟨rfl, rfl, h.1, h.2.1⟩

/-- Settlement only touches the transcript and the loading flag. -/
theorem handleSendSettle_chatSession (s : ChatState) (r : RemoteResult) :
    (handleSendSettle s r).chatSession = s.chatSession := by
  cases r <;> rfl

/-- No UI event replaces the memoized gateway handle or re-runs
construction: `useMemo` with an empty dependency list computes the handle
once per component lifetime and every later render reuses it. -/
theorem step_preserves_handle (e : UIEvent) (u : UIState) :
    (step e u).chat.chatSession = u.chat.chatSession
    ∧ (step e u).constructAttempts = u.constructAttempts := by
  cases e with
  | typeInput t => exact ⟨rfl, rfl⟩
  | pressKey k shift =>
      simp only [step]
      split
      · exact ⟨by rw [issueFrom_chat]; exact handleSendStart_chatSession u.chat,
          issueFrom_constructAttempts u (handleSendStart u.chat)⟩
      · exact ⟨rfl, rfl⟩
  | clickSend =>
      simp only [step]
      split
      · exact ⟨rfl, rfl⟩
      · exact ⟨by rw [issueFrom_chat]; exact handleSendStart_chatSession u.chat,
          issueFrom_constructAttempts u (handleSendStart u.chat)⟩
  | settle r =>
      simp only [step]
      split
      · exact ⟨rfl, rfl⟩
      · exact ⟨handleSendSettle_chatSession u.chat r, rfl⟩

/-- Each UI event either leaves the request log unchanged or appends one
request issued on the handle memoized at that moment. -/
theorem step_requestLog_handles (e : UIEvent) (u : UIState) :
    (step e u).requestLog = u.requestLog
    ∨ ∃ q, (step e u).requestLog = u.requestLog ++ [q]
        ∧ u.chat.chatSession = some q.handle := by
  cases e with
  | typeInput t => left; rfl
  | pressKey k shift =>
      simp only [step]
      split
      · rcases handleSendStart_issued u.chat with hnone | ⟨q, hsome, hq⟩
        · left
          rw [issueFrom_requestLog, hnone]
          simp
        · right
          refine ⟨q, ?_, hq⟩
          rw [issueFrom_requestLog, hsome]
          rfl
      · left; rfl
  | clickSend =>
      simp only [step]
      split
      · left; rfl
      · rcases handleSendStart_issued u.chat with hnone | ⟨q, hsome, hq⟩
        · left
          rw [issueFrom_requestLog, hnone]
          simp
        · right
          refine ⟨q, ?_, hq⟩
          rw [issueFrom_requestLog, hsome]
          rfl
  | settle r =>
      simp only [step]
      split
      · left; rfl
      · left; rfl

/-- Invariant: along any trace the memoized handle stays the one produced
at construction, construction is never re-attempted, and every logged
request was issued on that very handle. -/
theorem runTrace_gateway_inv (g : Bool) (es : List UIEvent) : ∀ u : UIState,
    u.chat.chatSession = initGateway g → u.constructAttempts = 1 →
    (∀ q ∈ u.requestLog, initGateway g = some q.handle) →
    (runTrace u es).chat.chatSession = initGateway g
    ∧ (runTrace u es).constructAttempts = 1
    ∧ ∀ q ∈ (runTrace u es).requestLog, initGateway g = some q.handle := by
  induction es with
  | nil =>
      intro u h1 h2 h3
      exact ⟨h1, h2, h3⟩
  | cons e rest ih =>
      intro u h1 h2 h3
      have hp := step_preserves_handle e u
      refine ih (step e u) (hp.1.trans h1) (hp.2.trans h2) ?_
      rcases step_requestLog_handles e u with hsame | ⟨q, happ, hq⟩
      · rw [hsame]; exact h3
      · rw [happ]
        intro x hx
        rcases List.mem_append.mp hx with hx1 | hx2
        · exact h3 x hx1
        · have hxq : x = q := List.mem_singleton.mp hx2
          subst hxq
          exact h1.symm.trans hq

/-- Claim C10: exactly one gateway handle exists per component lifetime —
construction runs once (`constructAttempts` stays 1 along every trace, so
a failed construction is never retried), the memoized handle never
changes, and every request ever issued went out on that one handle; any
conversation context therefore lives in the gateway handle's own retained
history, never in the request payloads. -/
theorem single_gateway_handle_per_lifetime (g : Bool) (es : List UIEvent) :
    (runTrace (initUI g) es).chat.chatSession = initGateway g
    ∧ (runTrace (initUI g) es).constructAttempts = 1
    ∧ ∀ q ∈ (runTrace (initUI g) es).requestLog, initGateway g = some q.handle := by
  refine runTrace_gateway_inv g es (initUI g) rfl rfl ?_
  intro q hq
  exact absurd hq (List.not_mem_nil q)

/-- Happy-path trace: type the question, press Enter. -/
def happyTrace : List UIEvent :=
  [UIEvent.typeInput "What is the F1 score?", UIEvent.pressKey "Enter" false]

/-- Witness for claim C10: on the happy-path trace the one logged request
went out on the handle built at construction. -/
theorem single_gateway_handle_per_lifetime_witness :
    initGateway true
      = some (IssuedRequest.mk
          (GatewayHandle.mk "gemini-3-flash-preview" SYSTEM_INSTRUCTION)
          (SendMessageParams.mk "What is the F1 score?")).handle := by
  have hlog : (runTrace (initUI true) happyTrace).requestLog
      = [IssuedRequest.mk
          (GatewayHandle.mk "gemini-3-flash-preview" SYSTEM_INSTRUCTION)
          (SendMessageParams.mk "What is the F1 score?")] := rfl
  refine (single_gateway_handle_per_lifetime true happyTrace).2.2 _ ?_
  rw [hlog]
  exact List.mem_singleton_self _
